import Mathlib

/-!
Verification development for the snake game repository (src/main.py,
src/enhancements.py, src/configs.py).

The game state and the operations the specification talks about are
shallowly embedded below: pure functions over explicit state records,
with every random draw, clock read and I/O call of the Python source
replaced by an explicit oracle argument.  Machine integers are modelled
by ℤ and Python floats by ℚ (all constants involved are decimal
fractions, represented exactly).
-/

namespace SnakeGame

/-- Grid position: integer pixel coordinates (block aligned). -/
abbrev Pos := ℤ × ℤ

/-- GameConfig.SCREEN_WIDTH (main.py line 23). -/
def SCREEN_WIDTH : ℤ := 800

/-- GameConfig.SCREEN_HEIGHT (main.py line 24). -/
def SCREEN_HEIGHT : ℤ := 600

/-- GameConfig.BLOCK_SIZE (main.py line 25). -/
def BLOCK_SIZE : ℤ := 20

/-- GameConfig.MAX_SPEED (main.py line 27), used by the speed cap in move_snake. -/
def MAX_SPEED : ℚ := 15

/-- Movement directions, the four string tags of the source. -/
inductive Direction
  | UP
  | DOWN
  | LEFT
  | RIGHT
deriving DecidableEq, Repr

/-- The geometric opposite of a direction. -/
def Direction.opposite : Direction → Direction
  | .UP => .DOWN
  | .DOWN => .UP
  | .LEFT => .RIGHT
  | .RIGHT => .LEFT

/-- MovingFood (main.py lines 227-250): mobile food with a direction,
speed and a re-randomisation counter. -/
structure MovingFood where
  x : ℤ
  y : ℤ
  speed : ℤ
  direction : Direction
  move_counter : ℕ
deriving DecidableEq, Repr

/-- MovingFood.update (main.py lines 235-250).  The random direction
drawn every 30 ticks is passed in as the oracle argument randDir. -/
def MovingFood.update (f : MovingFood) (randDir : Direction) : MovingFood :=
  let dir := if f.move_counter % 30 = 0 then randDir else f.direction
  let f1 : MovingFood :=
    match dir with
    | .UP => { f with direction := dir, y := max 0 (f.y - f.speed) }
    | .DOWN => { f with direction := dir,
                        y := min (SCREEN_HEIGHT - BLOCK_SIZE) (f.y + f.speed) }
    | .LEFT => { f with direction := dir, x := max 0 (f.x - f.speed) }
    | .RIGHT => { f with direction := dir,
                         x := min (SCREEN_WIDTH - BLOCK_SIZE) (f.x + f.speed) }
  { f1 with move_counter := f.move_counter + 1 }

/-- Iterated MovingFood.update over a list of oracle directions. -/
def MovingFood.updates (f : MovingFood) (dirs : List Direction) : MovingFood :=
  dirs.foldl MovingFood.update f

/-- The coordinates of a MovingFood lie on the board. -/
def MovingFood.inBounds (f : MovingFood) : Prop :=
  0 ≤ f.x ∧ f.x ≤ SCREEN_WIDTH - BLOCK_SIZE ∧
  0 ≤ f.y ∧ f.y ≤ SCREEN_HEIGHT - BLOCK_SIZE

instance (f : MovingFood) : Decidable f.inBounds := by
  unfold MovingFood.inBounds
  infer_instance

/-- The food target: either a static grid position or a MovingFood
(generate_apple, main.py lines 737-747, returns one of the two). -/
inductive Food
  | static (p : Pos)
  | moving (f : MovingFood)
deriving DecidableEq, Repr

/-- A mini-mission (enhancements.py lines 65-84): description tag,
goal, progress and reward.  Goals and progress are numbers in Python
(the speed mission compares against a float speed), modelled by ℚ. -/
structure Mission where
  description : String
  goal : ℚ
  current_progress : ℚ
  reward : ℚ
deriving DecidableEq, Repr

/-- The fixed mission pool of GameEnhancements.create_mini_missions,
parametrised by the configured max speed used for the speed goal. -/
def missionPool (maxSpeed : ℚ) : List Mission :=
  [ ⟨"Eat 5 apples without hitting walls", 5, 0, 10⟩,
    ⟨"Reach max speed", maxSpeed, 0, 15⟩,
    ⟨"Collect 3 power-ups", 3, 0, 20⟩ ]

/-- The top-level game states of main.py (the game_state strings). -/
inductive GState
  | START
  | PLAYING
  | PAUSED
  | GAME_OVER
deriving DecidableEq, Repr

/-- The session state of SnakeGame restricted to the fields read or
written by move_snake, check_collision, handle_collision and
AchievementManager.check_achievements.  Power-ups are tracked by their
grid position (their type plays no role in the claims below);
configuration values that the source reads from self.config or
self.difficulty_config are carried as fields. -/
structure GameState where
  snake : List Pos
  direction : Direction
  apple : Food
  score : ℚ
  current_speed : ℚ
  lives : ℤ
  game_state : GState
  is_invincible : Bool
  invincibility_timer : ℤ
  power_ups : List Pos
  power_up_spawn_timer : ℕ
  challenge_mode : Bool
  current_mission : Option Mission
  obstacles : List Pos
  /-- self.difficulty_config apple_score. -/
  apple_score : ℚ
  /-- self.difficulty_config initial_speed (the value of the selected tier,
  read at main.py line 402; 3 for EASY, 5 for MEDIUM, 7 for HARD). -/
  difficulty_initial_speed : ℚ
  /-- self.config gameplay initial_speed (configs.py default 5). -/
  gameplay_initial_speed : ℚ
  /-- self.config gameplay max_speed (configs.py default 15). -/
  gameplay_max_speed : ℚ
  /-- self.config gameplay initial_lives (configs.py default 3). -/
  initial_lives : ℤ
  /-- achievements total_apples_eaten counter. -/
  total_apples_eaten : ℕ
  /-- achievements max_speed_reached counter. -/
  max_speed_reached : ℚ
  /-- achievements power_ups_collected counter. -/
  power_ups_collected : ℕ
  /-- achievements achievement_long_snake_unlocked flag. -/
  long_snake_unlocked : Bool
  /-- achievements achievement_speed_demon_unlocked flag. -/
  speed_demon_unlocked : Bool
  /-- achievements achievement_power_up_master_unlocked flag. -/
  power_up_master_unlocked : Bool
  /-- achievements achievement_survival_master_unlocked flag. -/
  survival_master_unlocked : Bool
deriving DecidableEq, Repr

/-- Oracle for the random draws and clock reads performed during one
move_snake call: the rejection-sampled new apple, the random mission
draw, the two power-up spawn decisions (each standing for a uniform
draw compared against a chance), the rejection-sampled power-up
placements, and the millisecond clock. -/
structure Oracle where
  newApple : Food
  newMission : Mission
  powerUpRollEat : Bool
  powerUpRollTimer : Bool
  newPowerUp : Pos
  newPowerUp2 : Pos
  now : ℤ
deriving Repr

/-- The new head position move_snake computes from the current head
and direction (main.py lines 869-879). -/
def newHead (g : GameState) : Pos :=
  let head := g.snake.getLastD (0, 0)
  match g.direction with
  | .UP => (head.1, head.2 - BLOCK_SIZE)
  | .DOWN => (head.1, head.2 + BLOCK_SIZE)
  | .LEFT => (head.1 - BLOCK_SIZE, head.2)
  | .RIGHT => (head.1 + BLOCK_SIZE, head.2)

/-- The is_apple_eaten test of move_snake (main.py lines 885-894):
bounding-box overlap for moving food, exact equality for static food. -/
def Food.eatenBy (nh : Pos) : Food → Prop
  | .moving f => |nh.1 - f.x| < BLOCK_SIZE ∧ |nh.2 - f.y| < BLOCK_SIZE
  | .static p => nh = p

instance (nh : Pos) : (f : Food) → Decidable (f.eatenBy nh)
  | .moving f => by unfold Food.eatenBy; infer_instance
  | .static p => by unfold Food.eatenBy; infer_instance

/-- Whether the move about to be made by move_snake eats the apple. -/
def appleEaten (g : GameState) : Prop :=
  g.apple.eatenBy (newHead g)

instance (g : GameState) : Decidable (appleEaten g) := by
  unfold appleEaten
  infer_instance

/-- The apple-count mission block of move_snake (main.py lines
906-916): progress is incremented, and on completion the reward is
added to the score and the mission replaced by a fresh random draw
(the newMission field of the oracle). -/
def missionAppleStep (score : ℚ) (mission : Option Mission)
    (newMission : Mission) : ℚ × Option Mission :=
  match mission with
  | some m =>
    if m.description = "Eat 5 apples without hitting walls" then
      let m1 := { m with current_progress := m.current_progress + 1 }
      if m1.current_progress ≥ m1.goal then
        (score + m1.reward, some newMission)
      else
        (score, some m1)
    else
      (score, some m)
  | none => (score, none)

/-- The challenge-mode speed mission block of move_snake (main.py
lines 931-937): when challenge mode is active and the current mission
is the speed mission, reaching the goal speed sets progress to the
goal and adds the reward to the score; the mission is not replaced. -/
def missionSpeedStep (score : ℚ) (mission : Option Mission)
    (speed : ℚ) (challengeMode : Bool) : ℚ × Option Mission :=
  if challengeMode then
    match mission with
    | some m =>
      if m.description = "Reach max speed" then
        if speed ≥ m.goal then
          (score + m.reward, some { m with current_progress := m.goal })
        else
          (score, some m)
      else
        (score, some m)
    | none => (score, none)
  else
    (score, mission)

/-- The apple-eaten branch of move_snake (main.py lines 897-944),
applied to the state after the new head has been appended: score,
mission tracking, achievement counters, speed increase, new apple and
the chance power-up spawn. -/
def moveSnakeEat (g : GameState) (o : Oracle) : GameState :=
  let score1 := g.score + g.apple_score
  let r1 := missionAppleStep score1 g.current_mission o.newMission
  let total := g.total_apples_eaten + 1
  let speed1 := min (g.current_speed + 1/2) MAX_SPEED
  let msr := max g.max_speed_reached speed1
  let r2 := missionSpeedStep r1.1 r1.2 speed1 g.challenge_mode
  { g with score := r2.1,
           current_mission := r2.2,
           total_apples_eaten := total,
           current_speed := speed1,
           max_speed_reached := msr,
           apple := o.newApple,
           power_ups := if o.powerUpRollEat then g.power_ups ++ [o.newPowerUp]
                        else g.power_ups }

/-- The power-up spawn timer step of move_snake (main.py lines
950-954): every 50 frames, a 20% chance to spawn a power-up. -/
def powerUpTimerStep (g : GameState) (o : Oracle) : GameState :=
  let t := g.power_up_spawn_timer + 1
  if t ≥ 50 then
    { g with power_up_spawn_timer := 0,
             power_ups := if o.powerUpRollTimer then g.power_ups ++ [o.newPowerUp2]
                          else g.power_ups }
  else
    { g with power_up_spawn_timer := t }

/-- The invincibility timer step of move_snake (main.py lines
957-960): invincibility lapses 3 seconds after it was armed. -/
def invincibilityStep (g : GameState) (o : Oracle) : GameState :=
  if g.is_invincible = true ∧ o.now - g.invincibility_timer > 3000 then
    { g with is_invincible := false }
  else
    g

/-- SnakeGame.move_snake (main.py lines 865-964): append the new head;
if the apple is eaten run the eat branch, otherwise pop the tail; then
the power-up spawn timer and the invincibility timer. -/
def moveSnake (g : GameState) (o : Oracle) : GameState :=
  let g1 := { g with snake := g.snake ++ [newHead g] }
  let g2 := if appleEaten g then moveSnakeEat g1 o
            else { g1 with snake := g1.snake.drop 1 }
  invincibilityStep (powerUpTimerStep g2 o) o

/-- The 3-segment snake handle_collision and reset_game respawn at the
screen centre (main.py lines 1051-1058). -/
def centerSnake : List Pos :=
  let cx := SCREEN_WIDTH / 2
  let cy := SCREEN_HEIGHT / 2
  [(cx - BLOCK_SIZE * 2, cy), (cx - BLOCK_SIZE, cy), (cx, cy)]

/-- SnakeGame.handle_collision (main.py lines 1033-1065).  The
rejection-sampled new apple is the oracle argument.  Returns the new
state and the boolean result of the Python method. -/
def handleCollision (g : GameState) (newApple : Food) : GameState × Bool :=
  let g1 := { g with lives := g.lives - 1,
                     current_speed := g.gameplay_initial_speed }
  if g1.lives ≤ 0 then
    ({ g1 with game_state := .GAME_OVER }, false)
  else
    ({ g1 with game_state := .PLAYING,
               snake := centerSnake,
               direction := .RIGHT,
               apple := newApple,
               power_ups := [] }, true)

/-- The wall test of check_collision (main.py lines 1016-1017). -/
def wallHit (head : Pos) : Prop :=
  head.1 < 0 ∨ head.1 ≥ SCREEN_WIDTH ∨ head.2 < 0 ∨ head.2 ≥ SCREEN_HEIGHT

instance (head : Pos) : Decidable (wallHit head) := by
  unfold wallHit
  infer_instance

/-- SnakeGame.check_collision (main.py lines 1003-1031): wall, then
self, then obstacle test; any hit is handed to handle_collision.  The
power-up logging loop at lines 1011-1013 only logs and is omitted. -/
def checkCollision (g : GameState) (newApple : Food) : GameState × Bool :=
  let head := g.snake.getLastD (0, 0)
  if wallHit head then handleCollision g newApple
  else if head ∈ g.snake.dropLast then handleCollision g newApple
  else if g.obstacles ≠ [] ∧ head ∈ g.obstacles then handleCollision g newApple
  else (g, true)

/-- The collision classifications of the specification. -/
inductive CollisionKind
  | NONE
  | WALL
  | SELF
  | OBSTACLE
deriving DecidableEq, Repr

/-- The classification check_collision performs, i.e. which of its
three tests (in source order: wall at lines 1016-1019, self at lines
1022-1024, obstacle at lines 1027-1029) fires for a given snake and
obstacle list. -/
def collisionResult (snake : List Pos) (obstacles : List Pos) : CollisionKind :=
  let head := snake.getLastD (0, 0)
  if wallHit head then .WALL
  else if head ∈ snake.dropLast then .SELF
  else if obstacles ≠ [] ∧ head ∈ obstacles then .OBSTACLE
  else .NONE

/-- A position lies inside the board rectangle. -/
def inBoundsPos (p : Pos) : Prop :=
  0 ≤ p.1 ∧ p.1 < SCREEN_WIDTH ∧ 0 ≤ p.2 ∧ p.2 < SCREEN_HEIGHT

instance (p : Pos) : Decidable (inBoundsPos p) := by
  unfold inBoundsPos
  infer_instance

/-- AchievementManager.check_achievements (main.py lines 332-359):
each of the four achievements, in the enumeration order of the
ACHIEVEMENTS dict, is tested and unlocked at most once, adding its
reward to the score.  Returns the new state and the names of the newly
unlocked achievements. -/
def checkAchievements (g : GameState) : GameState × List String :=
  let r0 : GameState × List String := (g, [])
  let r1 := if r0.1.snake.length ≥ 20 ∧ r0.1.long_snake_unlocked = false then
      ({ r0.1 with long_snake_unlocked := true, score := r0.1.score + 50 },
       r0.2 ++ ["Snake Charmer"])
    else r0
  let r2 := if r1.1.current_speed ≥ r1.1.gameplay_max_speed ∧
               r1.1.speed_demon_unlocked = false then
      ({ r1.1 with speed_demon_unlocked := true, score := r1.1.score + 30 },
       r1.2 ++ ["Speed Demon"])
    else r1
  let r3 := if r2.1.power_ups_collected ≥ 10 ∧
               r2.1.power_up_master_unlocked = false then
      ({ r2.1 with power_up_master_unlocked := true, score := r2.1.score + 40 },
       r2.2 ++ ["Power-Up Collector"])
    else r2
  if r3.1.lives = r3.1.initial_lives ∧ r3.1.survival_master_unlocked = false then
    ({ r3.1 with survival_master_unlocked := true, score := r3.1.score + 25 },
     r3.2 ++ ["Survival Expert"])
  else r3

/-- The pressed state of the four arrow keys, as read by
pygame.key.get_pressed in handle_events. -/
structure KeyState where
  up : Bool
  down : Bool
  left : Bool
  right : Bool
deriving DecidableEq, Repr

/-- The directional-input dispatch of handle_events while PLAYING
(main.py lines 848-856): an if/elif chain that refuses the geometric
opposite of the current direction and otherwise leaves it unchanged. -/
def newDirection (current : Direction) (keys : KeyState) : Direction :=
  if keys.up = true ∧ current ≠ .DOWN then .UP
  else if keys.down = true ∧ current ≠ .UP then .DOWN
  else if keys.left = true ∧ current ≠ .RIGHT then .LEFT
  else if keys.right = true ∧ current ≠ .LEFT then .RIGHT
  else current

/-- A key state with exactly one arrow pressed. -/
def pressOnly : Direction → KeyState
  | .UP => ⟨true, false, false, false⟩
  | .DOWN => ⟨false, true, false, false⟩
  | .LEFT => ⟨false, false, true, false⟩
  | .RIGHT => ⟨false, false, false, true⟩

/-- Challenge mode settings (enhancements.py lines 44-50 create the
base dict; apply_challenge_mode_difficulty may add the obstacle_count
and obstacle_speed keys, absent in the base, hence Option). -/
structure ChallengeSettings where
  time_limit : ℤ
  target_score : ℤ
  obstacles : Bool
  moving_walls : Bool
  special_apple_spawn : Bool
  obstacle_count : Option ℤ := none
  obstacle_speed : Option ℚ := none
deriving DecidableEq, Repr

/-- Conversion of a Python float to int: truncation toward zero. -/
def pyInt (q : ℚ) : ℤ :=
  if 0 ≤ q then ⌊q⌋ else ⌈q⌉

/-- SnakeGame.apply_challenge_mode_difficulty (main.py lines 492-514):
scale time limit and target score by the multiplier, add obstacle
count and speed when the base enables obstacles, and force the
moving-walls and special-apple flags above multiplier 1.5. -/
def applyChallengeModeDifficulty (base : ChallengeSettings) (m : ℚ) :
    ChallengeSettings :=
  let adj1 := { base with
    time_limit := pyInt ((base.time_limit : ℚ) / m),
    target_score := pyInt ((base.target_score : ℚ) * m) }
  let adj2 := if base.obstacles = true then
      { adj1 with obstacle_count := some (pyInt (3 * m)),
                  obstacle_speed := some (1 + (m - 1) * (1/2)) }
    else adj1
  if m > 3/2 then
    { adj2 with moving_walls := true, special_apple_spawn := true }
  else adj2

/-- The mean of the last 3 entries of the persisted score list, the
value initialize_challenge_mode computes at main.py lines 452-453
(for fewer than 3 entries, the mean of all of them; division by the
list length, which in ℚ evaluates the empty case to 0). -/
def meanRecentScores (scores : List ℚ) : ℚ :=
  let recent := scores.drop (scores.length - 3)
  recent.sum / (recent.length : ℚ)

/-- The hour-of-day window test of initialize_challenge_mode
(main.py line 463). -/
def isPeakHour (hour : ℕ) : Prop :=
  (20 ≤ hour ∧ hour ≤ 23) ∨ (14 ≤ hour ∧ hour ≤ 16)

instance (hour : ℕ) : Decidable (isPeakHour hour) := by
  unfold isPeakHour
  infer_instance

/-- The activation probability computed by
SnakeGame.initialize_challenge_mode (main.py lines 446-478), as a
function of the persisted score list, the consecutive non-challenge
session counter, the millisecond clock value (from which the hour of
day is derived at line 462) and the number of unlocked achievement
flags counted at line 467.  The random draw against this probability
at line 481 is not part of the value. -/
def initializeChallengeModeProbability (highScores : List ℚ)
    (gamesSinceChallenge : ℕ) (ticks : ℕ) (achievementCount : ℕ) : ℚ :=
  let base0 : ℚ := 1/5
  let base1 := if highScores ≠ [] ∧ meanRecentScores highScores > 50 then
      base0 + 1/10
    else base0
  let base2 := base1 + min (3/20) ((gamesSinceChallenge : ℚ) * (1/20))
  let hour := ticks / 3600000 % 24
  let base3 := if isPeakHour hour then base2 + 1/20 else base2
  let base4 := if achievementCount > 2 then base3 + 1/10 else base3
  min (3/4) (max (1/10) base4)

/-- The activation probability in the words of the specification: the
clamp into the interval from 0.1 to 0.75 of 0.2, plus 0.1 if the mean
of the last 3 persisted scores exceeds 50, plus the linear
consecutive-session bonus capped at 0.15, plus 0.05 during the peak
hour windows, plus 0.1 when more than 2 achievements are unlocked.
Stated from the spec sentence, to be compared with
initializeChallengeModeProbability. -/
def claimedActivationProbability (highScores : List ℚ)
    (gamesSinceChallenge : ℕ) (ticks : ℕ) (achievementCount : ℕ) : ℚ :=
  min (3/4) (max (1/10)
    (1/5
      + (if meanRecentScores highScores > 50 then 1/10 else 0)
      + min (3/20) ((gamesSinceChallenge : ℚ) * (1/20))
      + (if isPeakHour (ticks / 3600000 % 24) then 1/20 else 0)
      + (if achievementCount > 2 then 1/10 else 0)))

/-- A concrete mid-game session on MEDIUM difficulty: the freshly
spawned centred snake heading RIGHT with a static apple one block to
the right of the head. -/
def sampleState : GameState :=
  { snake := [(360, 300), (380, 300), (400, 300)]
    direction := .RIGHT
    apple := .static (420, 300)
    score := 0
    current_speed := 5
    lives := 3
    game_state := .PLAYING
    is_invincible := false
    invincibility_timer := 0
    power_ups := []
    power_up_spawn_timer := 0
    challenge_mode := false
    current_mission := none
    obstacles := []
    apple_score := 2
    difficulty_initial_speed := 5
    gameplay_initial_speed := 5
    gameplay_max_speed := 15
    initial_lives := 3
    total_apples_eaten := 0
    max_speed_reached := 5
    power_ups_collected := 0
    long_snake_unlocked := false
    speed_demon_unlocked := false
    power_up_master_unlocked := false
    survival_master_unlocked := false }

/-- A concrete oracle: a static apple far away, the apple mission as
the next random mission draw, no power-up spawns, clock at 0. -/
def sampleOracle : Oracle :=
  { newApple := .static (0, 0)
    newMission := ⟨"Eat 5 apples without hitting walls", 5, 0, 10⟩
    powerUpRollEat := false
    powerUpRollTimer := false
    newPowerUp := (0, 0)
    newPowerUp2 := (0, 0)
    now := 0 }

/-- A session holding the invincibility power-up (flag set, timer
freshly armed) on its last life, whose head has just crossed the right
wall: head x = 800 = SCREEN_WIDTH. -/
def invincibleState : GameState :=
  { sampleState with
    snake := [(760, 300), (780, 300), (800, 300)]
    is_invincible := true
    lives := 1 }

/-- A session on HARD difficulty (tier initial speed 7, default
gameplay initial speed 5) about to lose a non-final life. -/
def hardCollisionState : GameState :=
  { sampleState with
    difficulty_initial_speed := 7
    current_speed := 12
    lives := 3 }

/-- A challenge-mode session at max speed whose active mission is the
speed mission (goal and reward from enhancements.py lines 72-77 with
the default max speed 15), with the apple one block right of the head. -/
def speedMissionState : GameState :=
  { sampleState with
    challenge_mode := true
    current_speed := 15
    max_speed_reached := 15
    current_mission := some ⟨"Reach max speed", 15, 0, 15⟩ }

/-- Oracle for the first eat step: the regenerated apple lands one
block right of the next head of the snake. -/
def eatOracle1 : Oracle := { sampleOracle with newApple := .static (440, 300) }

/-- Oracle for the second eat step. -/
def eatOracle2 : Oracle := { sampleOracle with newApple := .static (460, 300) }

/-- A snake whose head is out of bounds and also equal to one of its
own non-head segments (the state reached by steering an already
out-of-bounds snake back across its body). -/
def overlapSnake : List Pos := [(-20, 300), (0, 300), (-20, 300)]

/-- A concrete base challenge settings draw (time limit 45 s, target
score 46, obstacles disabled). -/
def sampleBase : ChallengeSettings :=
  { time_limit := 45
    target_score := 46
    obstacles := false
    moving_walls := false
    special_apple_spawn := false }

/-- A concrete base challenge settings draw with obstacles enabled. -/
def obstacleBase : ChallengeSettings :=
  { time_limit := 45
    target_score := 46
    obstacles := true
    moving_walls := false
    special_apple_spawn := false }

/-- A MovingFood at the board origin with the default speed 2. -/
def sampleFood : MovingFood :=
  { x := 0, y := 0, speed := 2, direction := .RIGHT, move_counter := 0 }

lemma MovingFood.update_speed (f : MovingFood) (d : Direction) :
    (f.update d).speed = f.speed := by
  unfold MovingFood.update
  cases (if f.move_counter % 30 = 0 then d else f.direction) <;> simp

lemma MovingFood.update_inBounds (f : MovingFood) (d : Direction)
    (hs : 0 ≤ f.speed) (hb : f.inBounds) : (f.update d).inBounds := by
  obtain ⟨hx0, hx1, hy0, hy1⟩ := hb
  unfold MovingFood.update MovingFood.inBounds
  cases (if f.move_counter % 30 = 0 then d else f.direction) <;>
    simp only [SCREEN_WIDTH, SCREEN_HEIGHT, BLOCK_SIZE] at * <;>
    refine ⟨?_, ?_, ?_, ?_⟩ <;> omega

/-- C10: mobile food never leaves the board: starting from coordinates
within the rectangle from (0,0) to (SCREEN_WIDTH − BLOCK_SIZE,
SCREEN_HEIGHT − BLOCK_SIZE) and a non-negative speed, any number of
MovingFood.update calls (with arbitrary random direction draws) keeps
the coordinates within that rectangle. -/
theorem C10_moving_food_stays_on_board (f : MovingFood) (dirs : List Direction)
    (hs : 0 ≤ f.speed) (hb : f.inBounds) : (f.updates dirs).inBounds := by
  induction dirs generalizing f with
  | nil => exact hb
  | cons d rest ih =>
      have h1 := MovingFood.update_inBounds f d hs hb
      have h2 : 0 ≤ (f.update d).speed := by
        rw [MovingFood.update_speed]; exact hs
      exact ih (f.update d) h2 h1

/-- Witness for C10 at a concrete food and direction sequence. -/
theorem C10_moving_food_stays_on_board_witness :
    0 ≤ sampleFood.speed ∧ sampleFood.inBounds ∧
    (sampleFood.updates [.RIGHT, .DOWN, .UP, .LEFT]).inBounds :=
  ⟨by decide, by decide,
    C10_moving_food_stays_on_board sampleFood [.RIGHT, .DOWN, .UP, .LEFT]
      (by decide) (by decide)⟩

/-- C8: a directional input equal to the geometric opposite of the
current direction is ignored (the direction is unchanged), and no key
state whatsoever can turn the direction into its own opposite, so the
direction sequence never contains two consecutive opposite values. -/
theorem C8_no_reversal :
    (∀ c : Direction, newDirection c (pressOnly c.opposite) = c) ∧
    (∀ (c : Direction) (k : KeyState), newDirection c k ≠ c.opposite) := by
  constructor
  · intro c
    cases c <;> rfl
  · intro c k
    rcases k with ⟨u, d, l, r⟩
    cases c <;> cases u <;> cases d <;> cases l <;> cases r <;> decide

lemma powerUpTimerStep_snake (g : GameState) (o : Oracle) :
    (powerUpTimerStep g o).snake = g.snake := by
  simp only [powerUpTimerStep]
  split_ifs <;> rfl

lemma invincibilityStep_snake (g : GameState) (o : Oracle) :
    (invincibilityStep g o).snake = g.snake := by
  unfold invincibilityStep
  split <;> rfl

lemma moveSnake_snake (g : GameState) (o : Oracle) :
    (moveSnake g o).snake =
      if appleEaten g then g.snake ++ [newHead g]
      else (g.snake ++ [newHead g]).drop 1 := by
  unfold moveSnake
  rw [invincibilityStep_snake, powerUpTimerStep_snake]
  split <;> rfl

/-- C1: one move_snake call appends exactly one new head (the head
offset one block in the current direction); on a non-eating move the
tail is removed so the length is unchanged, and on an eating move the
tail is kept so the length grows by exactly 1. -/
theorem C1_move_snake_length (g : GameState) (o : Oracle)
    (h : g.snake ≠ []) :
    (moveSnake g o).snake =
      (if appleEaten g then g.snake else g.snake.drop 1) ++ [newHead g] ∧
    (moveSnake g o).snake.length =
      if appleEaten g then g.snake.length + 1 else g.snake.length := by
  rw [moveSnake_snake]
  rcases hx : g.snake with _ | ⟨a, t⟩
  · exact absurd hx h
  · split <;> simp

/-- Witness for C1 at the concrete sample session (which eats the
apple one block to the right of its head). -/
theorem C1_move_snake_length_witness :
    sampleState.snake ≠ [] ∧
    ((moveSnake sampleState sampleOracle).snake =
      (if appleEaten sampleState then sampleState.snake
       else sampleState.snake.drop 1) ++ [newHead sampleState] ∧
     (moveSnake sampleState sampleOracle).snake.length =
      if appleEaten sampleState then sampleState.snake.length + 1
      else sampleState.snake.length) :=
  ⟨by decide, C1_move_snake_length sampleState sampleOracle (by decide)⟩

/-- C2 fails on the code: check_collision and handle_collision never
consult the invincibility flag, so with the flag set (timer freshly
armed, clock at 0) a wall collision still decrements lives and, on the
last life, still transitions the session to GAME_OVER. -/
theorem C2_invincibility_not_consulted :
    invincibleState.is_invincible = true ∧
    (checkCollision invincibleState (Food.static (0, 0))).1.lives =
      invincibleState.lives - 1 ∧
    (checkCollision invincibleState (Food.static (0, 0))).1.game_state =
      GState.GAME_OVER ∧
    (checkCollision invincibleState (Food.static (0, 0))).2 = false := by
  decide

/-- C3 as amended: handle_collision decrements lives and resets
current_speed to the initial speed of the gameplay configuration (not
of the selected difficulty tier); on lives ≤ 0 it transitions to GAME_OVER
and returns failure, otherwise it returns success after respawning the
centred 3-segment snake heading RIGHT, installing the freshly
generated apple and clearing the power-ups; score, the remaining
lives count, the mission and the obstacle set are untouched. -/
theorem C3_handle_collision_behavior (g : GameState) (a : Food) :
    (handleCollision g a).1.lives = g.lives - 1 ∧
    (handleCollision g a).1.current_speed = g.gameplay_initial_speed ∧
    (handleCollision g a).1.score = g.score ∧
    (handleCollision g a).1.challenge_mode = g.challenge_mode ∧
    (handleCollision g a).1.current_mission = g.current_mission ∧
    (handleCollision g a).1.obstacles = g.obstacles ∧
    (g.lives - 1 ≤ 0 →
      (handleCollision g a).1.game_state = GState.GAME_OVER ∧
      (handleCollision g a).2 = false) ∧
    (0 < g.lives - 1 →
      (handleCollision g a).2 = true ∧
      (handleCollision g a).1.game_state = GState.PLAYING ∧
      (handleCollision g a).1.snake = centerSnake ∧
      (handleCollision g a).1.direction = Direction.RIGHT ∧
      (handleCollision g a).1.apple = a ∧
      (handleCollision g a).1.power_ups = []) := by
  simp only [handleCollision]
  split_ifs <;> simp <;> omega

/-- Witness for C3 at the concrete HARD session with 3 lives. -/
theorem C3_handle_collision_behavior_witness :
    0 < hardCollisionState.lives - 1 ∧
    ((handleCollision hardCollisionState (Food.static (0, 0))).2 = true ∧
     (handleCollision hardCollisionState (Food.static (0, 0))).1.game_state =
       GState.PLAYING ∧
     (handleCollision hardCollisionState (Food.static (0, 0))).1.snake =
       centerSnake ∧
     (handleCollision hardCollisionState (Food.static (0, 0))).1.direction =
       Direction.RIGHT ∧
     (handleCollision hardCollisionState (Food.static (0, 0))).1.apple =
       Food.static (0, 0) ∧
     (handleCollision hardCollisionState (Food.static (0, 0))).1.power_ups =
       []) :=
  ⟨by decide,
    (C3_handle_collision_behavior hardCollisionState
      (Food.static (0, 0))).2.2.2.2.2.2.2 (by decide)⟩

/-- Counterexample to C3 as stated: on HARD difficulty the initial
speed of the tier is 7, yet handle_collision resets current_speed to
the initial speed 5 of the gameplay configuration. -/
theorem C3_counterexample :
    (handleCollision hardCollisionState (Food.static (0, 0))).1.current_speed ≠
      hardCollisionState.difficulty_initial_speed := by
  decide

/-- C4 as amended: check_collision tests wall, then self, then
obstacles.  WALL is reported exactly when the head lies outside the
board rectangle; SELF is reported exactly when the head is inside the
rectangle and equals a non-head segment (the wall test takes
precedence); OBSTACLE is reported only when the obstacle set is
non-empty and contains the head. -/
theorem C4_collision_classification (snake obstacles : List Pos)
    (_h : snake ≠ []) :
    (collisionResult snake obstacles = CollisionKind.WALL ↔
      ¬ inBoundsPos (snake.getLastD (0, 0))) ∧
    (collisionResult snake obstacles = CollisionKind.SELF ↔
      inBoundsPos (snake.getLastD (0, 0)) ∧
      snake.getLastD (0, 0) ∈ snake.dropLast) ∧
    (collisionResult snake obstacles = CollisionKind.OBSTACLE →
      obstacles ≠ [] ∧ snake.getLastD (0, 0) ∈ obstacles) := by
  have hwb : ∀ p : Pos, wallHit p ↔ ¬ inBoundsPos p := by
    intro p
    unfold wallHit inBoundsPos
    constructor
    · rintro (h1 | h1 | h1 | h1) ⟨h2, h3, h4, h5⟩ <;> omega
    · intro h1
      by_contra h2
      push_neg at h2
      exact h1 ⟨h2.1, h2.2.1, h2.2.2.1, h2.2.2.2⟩
  simp only [collisionResult]
  split_ifs with h1 h2 h3 <;> simp_all [hwb, not_not]

/-- Witness for C4 at the centred snake with no obstacles. -/
theorem C4_collision_classification_witness :
    centerSnake ≠ [] ∧
    ((collisionResult centerSnake [] = CollisionKind.WALL ↔
       ¬ inBoundsPos (centerSnake.getLastD (0, 0))) ∧
     (collisionResult centerSnake [] = CollisionKind.SELF ↔
       inBoundsPos (centerSnake.getLastD (0, 0)) ∧
       centerSnake.getLastD (0, 0) ∈ centerSnake.dropLast) ∧
     (collisionResult centerSnake [] = CollisionKind.OBSTACLE →
       ([] : List Pos) ≠ [] ∧ centerSnake.getLastD (0, 0) ∈ ([] : List Pos))) :=
  ⟨by decide, C4_collision_classification centerSnake [] (by decide)⟩

/-- Counterexample to C4 as stated: a snake whose head equals one of
its own non-head segments but lies outside the board is classified
WALL, not SELF, so the claimed biconditional for SELF fails. -/
theorem C4_counterexample :
    overlapSnake.getLastD (0, 0) ∈ overlapSnake.dropLast ∧
    collisionResult overlapSnake [] ≠ CollisionKind.SELF ∧
    collisionResult overlapSnake [] = CollisionKind.WALL := by
  decide

/-- C5: the challenge-mode activation probability computed by the code
coincides, for every score history, non-challenge session count, clock
value and unlocked-achievement count, with the formula of the spec: the
clamp into the interval from 0.1 to 0.75 of the 20% base plus the four
bonuses; and at 0 prior games, empty score history, 0 achievements and
an off-peak hour it is exactly 0.2. -/
theorem C5_activation_probability :
    (∀ (scores : List ℚ) (gs ticks ac : ℕ),
      initializeChallengeModeProbability scores gs ticks ac =
        claimedActivationProbability scores gs ticks ac) ∧
    initializeChallengeModeProbability [] 0 0 0 = 1/5 := by
  constructor
  · intro scores gs ticks ac
    simp only [initializeChallengeModeProbability, claimedActivationProbability]
    by_cases hs : scores = []
    · have hm : ¬ meanRecentScores scores > 50 := by
        subst hs
        simp [meanRecentScores]
      simp only [hs, hm]
      split_ifs <;> simp_all
    · simp only [hs, ne_eq, not_false_iff, true_and]
      split_ifs <;> simp_all
  · norm_num [initializeChallengeModeProbability, meanRecentScores,
      isPeakHour, min_def, max_def]

lemma moveSnake_eat_unfold (g : GameState) (o : Oracle) (h : appleEaten g) :
    moveSnake g o =
      invincibilityStep (powerUpTimerStep
        (moveSnakeEat { g with snake := g.snake ++ [newHead g] } o) o) o := by
  simp only [moveSnake, h, ite_true]

lemma postSteps_fields (g : GameState) (o : Oracle) :
    (invincibilityStep (powerUpTimerStep g o) o).score = g.score ∧
    (invincibilityStep (powerUpTimerStep g o) o).current_mission =
      g.current_mission ∧
    (invincibilityStep (powerUpTimerStep g o) o).current_speed =
      g.current_speed ∧
    (invincibilityStep (powerUpTimerStep g o) o).apple = g.apple ∧
    (invincibilityStep (powerUpTimerStep g o) o).challenge_mode =
      g.challenge_mode ∧
    (invincibilityStep (powerUpTimerStep g o) o).apple_score = g.apple_score ∧
    (invincibilityStep (powerUpTimerStep g o) o).direction = g.direction ∧
    (invincibilityStep (powerUpTimerStep g o) o).snake = g.snake := by
  simp only [invincibilityStep, powerUpTimerStep]
  split_ifs <;> simp

lemma missionAppleStep_speed_mission (s : ℚ) (m : Mission) (nm : Mission)
    (hd : m.description = "Reach max speed") :
    missionAppleStep s (some m) nm = (s, some m) := by
  simp [missionAppleStep, hd, String.reduceEq]

lemma missionSpeedStep_complete (s : ℚ) (m : Mission) (sp : ℚ)
    (hd : m.description = "Reach max speed") (hs : m.goal ≤ sp) :
    missionSpeedStep s (some m) sp true =
      (s + m.reward, some { m with current_progress := m.goal }) := by
  simp [missionSpeedStep, hd, hs]

lemma moveSnakeEat_speed_mission (g : GameState) (o : Oracle) (m : Mission)
    (hc : g.challenge_mode = true) (hm : g.current_mission = some m)
    (hd : m.description = "Reach max speed")
    (hs : m.goal ≤ min (g.current_speed + 1/2) MAX_SPEED) :
    (moveSnakeEat g o).score = g.score + g.apple_score + m.reward ∧
    (moveSnakeEat g o).current_mission =
      some { m with current_progress := m.goal } ∧
    (moveSnakeEat g o).current_speed = min (g.current_speed + 1/2) MAX_SPEED ∧
    (moveSnakeEat g o).apple = o.newApple ∧
    (moveSnakeEat g o).challenge_mode = true ∧
    (moveSnakeEat g o).apple_score = g.apple_score ∧
    (moveSnakeEat g o).direction = g.direction ∧
    (moveSnakeEat g o).snake = g.snake := by
  have ha : missionAppleStep (g.score + g.apple_score) g.current_mission
      o.newMission = (g.score + g.apple_score, some m) := by
    rw [hm]
    exact missionAppleStep_speed_mission _ m _ hd
  simp only [moveSnakeEat]
  rw [ha]
  dsimp only
  rw [hc, missionSpeedStep_complete _ m _ hd hs]
  simp

lemma moveSnake_speed_mission (g : GameState) (o : Oracle) (m : Mission)
    (h : appleEaten g) (hc : g.challenge_mode = true)
    (hm : g.current_mission = some m)
    (hd : m.description = "Reach max speed")
    (hs : m.goal ≤ min (g.current_speed + 1/2) MAX_SPEED) :
    (moveSnake g o).score = g.score + g.apple_score + m.reward ∧
    (moveSnake g o).current_mission =
      some { m with current_progress := m.goal } ∧
    (moveSnake g o).current_speed = min (g.current_speed + 1/2) MAX_SPEED ∧
    (moveSnake g o).apple = o.newApple ∧
    (moveSnake g o).challenge_mode = true ∧
    (moveSnake g o).apple_score = g.apple_score ∧
    (moveSnake g o).direction = g.direction ∧
    (moveSnake g o).snake = g.snake ++ [newHead g] := by
  rw [moveSnake_eat_unfold g o h]
  obtain ⟨p1, p2, p3, p4, p5, p6, p7, p8⟩ :=
    postSteps_fields (moveSnakeEat { g with snake := g.snake ++ [newHead g] } o) o
  obtain ⟨e1, e2, e3, e4, e5, e6, e7, e8⟩ :=
    moveSnakeEat_speed_mission { g with snake := g.snake ++ [newHead g] } o m
      hc hm hd hs
  exact ⟨p1.trans (e1.trans rfl), p2.trans e2, p3.trans (e3.trans rfl),
    p4.trans e4, p5.trans e5, p6.trans (e6.trans rfl),
    p7.trans (e7.trans rfl), p8.trans (e8.trans rfl)⟩

/-- C6 fails on the code: with the speed-target mission active in
challenge mode at max speed, every apple-eating move adds the
reward of the mission to the score again, and the mission is never replaced
by a new draw (the next random mission of the oracle, the apple mission,
never appears).  Two consecutive eating moves each add apple_score
plus the 15-point reward, and both leave the completed speed mission
in place. -/
theorem C6_speed_mission_reward_repeats :
    appleEaten speedMissionState ∧
    appleEaten (moveSnake speedMissionState eatOracle1) ∧
    (moveSnake speedMissionState eatOracle1).score =
      speedMissionState.score + speedMissionState.apple_score + 15 ∧
    (moveSnake speedMissionState eatOracle1).current_mission =
      some ⟨"Reach max speed", 15, 15, 15⟩ ∧
    (moveSnake (moveSnake speedMissionState eatOracle1) eatOracle2).score =
      speedMissionState.score + 2 * speedMissionState.apple_score + 2 * 15 ∧
    (moveSnake (moveSnake speedMissionState eatOracle1) eatOracle2).current_mission =
      some ⟨"Reach max speed", 15, 15, 15⟩ := by
  have hmin : min ((15 : ℚ) + 1/2) 15 = 15 := min_eq_right (by norm_num)
  have h0 : appleEaten speedMissionState := by decide
  obtain ⟨a1s, a1m, a1sp, a1ap, a1ch, a1as, a1dir, a1sn⟩ :=
    moveSnake_speed_mission speedMissionState eatOracle1
      ⟨"Reach max speed", 15, 0, 15⟩ h0 rfl rfl rfl
      (by show (15 : ℚ) ≤ min ((15 : ℚ) + 1/2) 15; rw [hmin])
  have hsn1 : (moveSnake speedMissionState eatOracle1).snake =
      [(360, 300), (380, 300), (400, 300), (420, 300)] := by
    rw [a1sn]; decide
  have hdir1 : (moveSnake speedMissionState eatOracle1).direction =
      Direction.RIGHT := by rw [a1dir]; decide
  have happ1 : (moveSnake speedMissionState eatOracle1).apple =
      Food.static (440, 300) := by rw [a1ap]; decide
  have h1 : appleEaten (moveSnake speedMissionState eatOracle1) := by
    simp only [appleEaten, newHead, hsn1, hdir1, happ1]
    decide
  obtain ⟨a2s, a2m, _, _, _, _, _, _⟩ :=
    moveSnake_speed_mission (moveSnake speedMissionState eatOracle1) eatOracle2
      ⟨"Reach max speed", 15, 15, 15⟩ h1 a1ch a1m rfl
      (by
        show (15 : ℚ) ≤
          min ((moveSnake speedMissionState eatOracle1).current_speed + 1/2) 15
        rw [a1sp]
        show (15 : ℚ) ≤ min (min ((15 : ℚ) + 1/2) 15 + 1/2) 15
        rw [hmin, hmin])
  refine ⟨h0, h1, a1s, a1m, ?_, a2m⟩
  rw [a2s, a1s, a1as]
  dsimp only
  ring

/-- pyInt coincides with the floor on non-negative rationals. -/
lemma pyInt_of_nonneg (q : ℚ) (h : 0 ≤ q) : pyInt q = ⌊q⌋ := by
  unfold pyInt
  simp [h]

/-- C9 as amended: for a multiplier m ≥ 1 and non-negative base
values, apply_challenge_mode_difficulty sets time_limit to the floor
of the base time limit divided by m and target_score to the floor of
the base target multiplied by m (the int() conversion of Python truncates);
obstacle_count = floor(3m) and obstacle_speed = 1 + (m − 1) × 0.5 are
produced only when the base settings enable obstacles; and m > 1.5
forces the moving-walls and special-apple flags on. -/
theorem C9_apply_difficulty (b : ChallengeSettings) (m : ℚ)
    (hm : 1 ≤ m) (ht : 0 ≤ b.time_limit) (hts : 0 ≤ b.target_score) :
    (applyChallengeModeDifficulty b m).time_limit =
      ⌊(b.time_limit : ℚ) / m⌋ ∧
    (applyChallengeModeDifficulty b m).target_score =
      ⌊(b.target_score : ℚ) * m⌋ ∧
    (b.obstacles = true →
      (applyChallengeModeDifficulty b m).obstacle_count = some ⌊3 * m⌋ ∧
      (applyChallengeModeDifficulty b m).obstacle_speed =
        some (1 + (m - 1) * (1/2))) ∧
    (b.obstacles = false →
      (applyChallengeModeDifficulty b m).obstacle_count = b.obstacle_count ∧
      (applyChallengeModeDifficulty b m).obstacle_speed = b.obstacle_speed) ∧
    (m > 3/2 →
      (applyChallengeModeDifficulty b m).moving_walls = true ∧
      (applyChallengeModeDifficulty b m).special_apple_spawn = true) ∧
    (¬ m > 3/2 →
      (applyChallengeModeDifficulty b m).moving_walls = b.moving_walls ∧
      (applyChallengeModeDifficulty b m).special_apple_spawn =
        b.special_apple_spawn) := by
  have hm0 : (0 : ℚ) < m := lt_of_lt_of_le one_pos hm
  have h1 : pyInt ((b.time_limit : ℚ) / m) = ⌊(b.time_limit : ℚ) / m⌋ := by
    apply pyInt_of_nonneg
    apply div_nonneg _ (le_of_lt hm0)
    exact_mod_cast ht
  have h2 : pyInt ((b.target_score : ℚ) * m) = ⌊(b.target_score : ℚ) * m⌋ := by
    apply pyInt_of_nonneg
    apply mul_nonneg _ (le_of_lt hm0)
    exact_mod_cast hts
  have h3 : pyInt (3 * m) = ⌊(3 : ℚ) * m⌋ := by
    apply pyInt_of_nonneg
    positivity
  simp only [applyChallengeModeDifficulty]
  split_ifs <;> simp_all

/-- Witness for C9 at multiplier 2 on the obstacle-enabled base. -/
theorem C9_apply_difficulty_witness :
    (1 : ℚ) ≤ 2 ∧ 0 ≤ obstacleBase.time_limit ∧ 0 ≤ obstacleBase.target_score ∧
    ((applyChallengeModeDifficulty obstacleBase 2).time_limit =
      ⌊(obstacleBase.time_limit : ℚ) / 2⌋ ∧
     (applyChallengeModeDifficulty obstacleBase 2).target_score =
      ⌊(obstacleBase.target_score : ℚ) * 2⌋ ∧
     (obstacleBase.obstacles = true →
       (applyChallengeModeDifficulty obstacleBase 2).obstacle_count =
         some ⌊(3 : ℚ) * 2⌋ ∧
       (applyChallengeModeDifficulty obstacleBase 2).obstacle_speed =
         some (1 + ((2 : ℚ) - 1) * (1/2))) ∧
     (obstacleBase.obstacles = false →
       (applyChallengeModeDifficulty obstacleBase 2).obstacle_count =
         obstacleBase.obstacle_count ∧
       (applyChallengeModeDifficulty obstacleBase 2).obstacle_speed =
         obstacleBase.obstacle_speed) ∧
     ((2 : ℚ) > 3/2 →
       (applyChallengeModeDifficulty obstacleBase 2).moving_walls = true ∧
       (applyChallengeModeDifficulty obstacleBase 2).special_apple_spawn =
         true) ∧
     (¬ (2 : ℚ) > 3/2 →
       (applyChallengeModeDifficulty obstacleBase 2).moving_walls =
         obstacleBase.moving_walls ∧
       (applyChallengeModeDifficulty obstacleBase 2).special_apple_spawn =
         obstacleBase.special_apple_spawn)) :=
  ⟨by norm_num, by decide, by decide,
    C9_apply_difficulty obstacleBase 2 (by norm_num) (by decide) (by decide)⟩

/-- Counterexample to C9 as stated: at multiplier 1.4 on a base with
time limit 45, target 46 and obstacles disabled, the adjusted time
limit 32 differs from 45/1.4, the adjusted target 64 differs from
46 × 1.4, and no obstacle_count field is produced at all. -/
theorem C9_counterexample :
    ((applyChallengeModeDifficulty sampleBase (7/5)).time_limit : ℚ) ≠
      (sampleBase.time_limit : ℚ) / (7/5) ∧
    ((applyChallengeModeDifficulty sampleBase (7/5)).target_score : ℚ) ≠
      (sampleBase.target_score : ℚ) * (7/5) ∧
    (applyChallengeModeDifficulty sampleBase (7/5)).obstacle_count = none := by
  norm_num [applyChallengeModeDifficulty, pyInt, sampleBase]

set_option maxHeartbeats 1600000 in
/-- C7: the achievement evaluator is idempotent: running
check_achievements a second time on the state the first run produced
(with nothing else changed) unlocks nothing, grants no reward, and
leaves the state — in particular the score — unchanged. -/
theorem C7_achievements_idempotent (g : GameState) :
    checkAchievements (checkAchievements g).1 = ((checkAchievements g).1, []) := by
  by_cases h1 : g.snake.length ≥ 20 <;>
    by_cases h2 : g.current_speed ≥ g.gameplay_max_speed <;>
    by_cases h3 : g.power_ups_collected ≥ 10 <;>
    by_cases h4 : g.lives = g.initial_lives <;>
    cases hf1 : g.long_snake_unlocked <;>
    cases hf2 : g.speed_demon_unlocked <;>
    cases hf3 : g.power_up_master_unlocked <;>
    cases hf4 : g.survival_master_unlocked <;>
    simp [checkAchievements, h1, h2, h3, h4, hf1, hf2, hf3, hf4]

end SnakeGame
